import Mathlib

/-
Verification of the core of server.js: the Spotify credential cache
(getSpotifyAccessToken), the search-result mapper (searchTrackOnSpotify),
the staged fallback helper of the therapy endpoint (getStage), the
nostalgia and vibe endpoints, and the fan-out / dedup aggregation of the
bydj endpoint.  All functions are shallow embeddings of the JavaScript
source: network calls are passed in as explicit oracles, wall-clock time
is an explicit Nat parameter (milliseconds, as Date.now), and thrown
exceptions are modelled with Except.
-/

namespace ArtificialHuman

/-- A mapped search hit, as built by searchTrackOnSpotify in server.js. -/
structure Track where
  title : String
  artist : String
  url : String
deriving DecidableEq

/-- One entry of the artists array of a raw Spotify search hit. -/
structure RawArtist where
  name : String
deriving DecidableEq

/-- A raw Spotify search hit: display name, contributing artists in
catalog order, and the canonical public link (external_urls.spotify). -/
structure RawTrack where
  name : String
  artists : List RawArtist
  spotifyUrl : String
deriving DecidableEq

-- ===== JS string primitives =====

/-- The JavaScript String.prototype.toLowerCase on the ASCII range,
written over the character list so that the kernel can evaluate it. -/
def jsToLowerCase (s : String) : String := ⟨s.data.map Char.toLower⟩

/-- The JavaScript String.prototype.trim: drop whitespace from both ends. -/
def jsTrim (s : String) : String :=
  ⟨((s.data.dropWhile Char.isWhitespace).reverse.dropWhile Char.isWhitespace).reverse⟩

/-- The JavaScript label.replace with a global character class matching
underscore and dash, replacing each match by a space. -/
def jsReplaceUnderscoreDash (s : String) : String :=
  ⟨s.data.map (fun c => if c = '_' || c = '-' then ' ' else c)⟩

-- ===== Credential cache (lines 18-45 of server.js) =====

/-- The module-level mutable state of the credential cache:
spotifyAccessToken (null before first use) and spotifyTokenExpiresAt
(milliseconds since the epoch, 0 before first use). -/
structure TokenState where
  spotifyAccessToken : Option String
  spotifyTokenExpiresAt : Nat
deriving DecidableEq

/-- The state of the cache at process start: token null, expiry 0. -/
def initTokenState : TokenState :=
  { spotifyAccessToken := none, spotifyTokenExpiresAt := 0 }

/-- The miss path of getSpotifyAccessToken: perform the client-credentials
exchange (given here as an oracle yielding either a failure or the pair of
access_token and expires_in seconds), store the token with expiry
now + expires_in * 1000 milliseconds, and return it.  The Bool records
that an exchange, that is a network call, was performed. -/
def exchangeToken (now : Nat) (exchange : Except Unit (String × Nat)) :
    Except Unit (TokenState × String × Bool) :=
  match exchange with
  | .error e => .error e
  | .ok (v, life) =>
    .ok ({ spotifyAccessToken := some v, spotifyTokenExpiresAt := now + life * 1000 }, v, true)

/-- getSpotifyAccessToken of server.js.  The guard is the JS truthiness
test on spotifyAccessToken (null and the empty string are falsy) together
with the strict comparison now < spotifyTokenExpiresAt; on a hit the
cached token is returned with no network call (Bool false), otherwise the
exchange runs. -/
def getSpotifyAccessToken (s : TokenState) (now : Nat) (exchange : Except Unit (String × Nat)) :
    Except Unit (TokenState × String × Bool) :=
  match s.spotifyAccessToken with
  | some tok =>
    if tok ≠ "" ∧ now < s.spotifyTokenExpiresAt then .ok (s, tok, false)
    else exchangeToken now exchange
  | none => exchangeToken now exchange

/-- Run a sequence of getSpotifyAccessToken calls against the shared
cache, each with its own wall-clock time and exchange oracle, returning
the final state, the per-call outcomes, and the total number of
credential exchanges performed. -/
def runGetTokens : TokenState → List (Nat × Except Unit (String × Nat)) →
    TokenState × List (Except Unit String) × Nat
  | s, [] => (s, [], 0)
  | s, (now, ex) :: calls =>
    match getSpotifyAccessToken s now ex with
    | .ok (s2, tok, flag) =>
      match runGetTokens s2 calls with
      | (sf, outs, n) => (sf, .ok tok :: outs, (if flag then 1 else 0) + n)
    | .error e =>
      match runGetTokens s calls with
      | (sf, outs, n) => (sf, .error e :: outs, n)

-- ===== Search client mapper (lines 57-70 of server.js) =====

/-- The per-hit mapping of searchTrackOnSpotify: title from the display
name, artist from the contributing artist names joined with a comma and a
space in catalog order, url from the canonical public link. -/
def trackOfItem (t : RawTrack) : Track :=
  { title := t.name
    artist := String.intercalate ", " (t.artists.map RawArtist.name)
    url := t.spotifyUrl }

/-- The response shaping of searchTrackOnSpotify: the raw hit list of the
backend response (res.data.tracks.items) mapped elementwise, in order. -/
def searchTrackOnSpotify (items : List RawTrack) : List Track :=
  items.map trackOfItem

-- ===== Fan-out aggregation of the bydj endpoint (lines 236-294) =====

/-- The normalized dedup key of a track: title lower-cased then trimmed,
as in (t.title || '').toLowerCase().trim(). -/
def normKey (t : Track) : String := jsTrim (jsToLowerCase t.title)

/-- The dedup loop of the bydj endpoint: walk the combined list keeping a
set of already seen normalized keys; a blank key is skipped, a seen key is
skipped, otherwise the track is kept and its key recorded. -/
def dedupLoop (seen : List String) : List Track → List Track
  | [] => []
  | t :: ts =>
    if normKey t = "" then dedupLoop seen ts
    else if normKey t ∈ seen then dedupLoop seen ts
    else t :: dedupLoop (normKey t :: seen) ts

/-- The collection loop over Promise.allSettled results: fulfilled values
are appended in query order, rejected queries contribute nothing. -/
def bydjCombined (resultsSets : List (Except Unit (List Track))) : List Track :=
  resultsSets.foldl (fun acc r => match r with | .ok v => acc ++ v | .error _ => acc) []

/-- The aggregation core of the bydj endpoint, from the settled per-query
outcomes onwards.  The result list of the single broad fallback query is
passed as fallbackResults (a fallback search that throws is the outer
try/catch 500 path and is not reached here).  Returns the tracks of the
response and whether the fallback query was issued. -/
def bydj (resultsSets : List (Except Unit (List Track))) (fallbackResults : List Track) :
    List Track × Bool :=
  let combined := bydjCombined resultsSets
  if combined.isEmpty then ((dedupLoop [] fallbackResults).take 12, true)
  else ((dedupLoop [] combined).take 12, false)

/-- The query derivation of the bydj endpoint: the prompt and three
suffixed variants, filtered by JS truthiness and capped at 4. -/
def bydjQueries (prompt : String) : List String :=
  ([prompt, prompt ++ " popular tracks", prompt ++ " vibes music", prompt ++ " top songs"].filter
    (fun q => q != "")).take 4

-- ===== Therapy endpoint (lines 75-113) =====

/-- The mood seed table qsets of the therapy endpoint; an unknown mood
key falls back to the neutral list, as qsets[mood] || qsets.neutral.
The truthy members this object literal inherits from Object.prototype
(a mood key such as constructor) are not modelled: no verified statement
here depends on which seed list an unknown mood selects. -/
def qsets (mood : String) : String × String × String :=
  if mood = "sad" then ("healing acoustic", "emotional mellow", "uplifting indie")
  else if mood = "angry" then ("calming ambient", "soft piano", "positive pop")
  else if mood = "fearful" then ("comfort calm vocal", "lofi relax", "confidence pop")
  else if mood = "disgusted" then ("neutral chill", "soft indie", "fresh upbeat")
  else if mood = "surprised" then ("atmosphere calm", "soft pop", "bright vibes")
  else if mood = "happy" then ("joy acoustic", "good vibes pop", "high energy")
  else ("lofi calm", "indie mellow", "optimistic beats")

/-- getStage of the therapy endpoint.  The search oracle stands for
searchTrackOnSpotify(query, limit); a thrown search is an error value and
propagates.  The suffixed seed runs first with limit 8; only when it
succeeds with an empty list does the bare seed run; the returned stage is
the first 6 tracks of whichever result was used. -/
def getStage (search : String → Nat → Except Unit (List Track)) (suffix q : String) :
    Except Unit (List Track) :=
  match search (q ++ suffix) 8 with
  | .error e => .error e
  | .ok r =>
    if r.isEmpty then
      match search q 8 with
      | .error e => .error e
      | .ok r2 => .ok (r2.take 6)
    else .ok (r.take 6)

/-- The response of the therapy endpoint: a 400 for a missing mood, a 500
when a stage threw (the catch block), or the three stage lists.  The ok
response carries nothing but the stage lists. -/
inductive TherapyOut where
  | badRequest (msg : String)
  | serverError
  | stages (stage1 stage2 stage3 : List Track)
deriving DecidableEq

/-- The language handling of the therapy endpoint: default a falsy
language to english, lower-case it, and map hindi and punjabi to their
fixed query suffix, every other language to the empty suffix. -/
def therapySuffix (language : Option String) : String :=
  let lang := jsToLowerCase (match language with
    | some l => if l ≠ "" then l else "english"
    | none => "english")
  if lang = "hindi" then " hindi"
  else if lang = "punjabi" then " punjabi" else ""

/-- The sequential stage execution of the therapy endpoint: the three
stage lists when every stage succeeded, otherwise the catch block 500. -/
def therapyStages (search : String → Nat → Except Unit (List Track))
    (suffix q1 q2 q3 : String) : TherapyOut :=
  match getStage search suffix q1, getStage search suffix q2, getStage search suffix q3 with
  | .ok s1, .ok s2, .ok s3 => .stages s1 s2 s3
  | _, _, _ => .serverError

/-- The therapy endpoint body: validate mood by JS truthiness, derive
the language suffix, pick the three seeds and run the stages. -/
def therapy (mood language : Option String)
    (search : String → Nat → Except Unit (List Track)) : TherapyOut :=
  match mood with
  | none => .badRequest "Mood missing"
  | some m =>
    if m = "" then .badRequest "Mood missing"
    else
      therapyStages search (therapySuffix language) (qsets m).1 (qsets m).2.1 (qsets m).2.2

-- ===== Nostalgia and vibe endpoints (lines 118-234) =====

/-- The response shape of the nostalgia, vibe and bydj endpoints: a 400
with a message, a 500 (the catch block), or tracks with a label and an
optional snapshot sentence. -/
inductive HttpOut where
  | badRequest (msg : String)
  | serverError
  | ok (tracks : List Track) (label : String) (snapshot : Option String)
deriving DecidableEq

/-- The query and label construction of the nostalgia endpoint (mode
already validated truthy): the four mode arms with their required
parameters checked by JS truthiness (a missing year or prompt is the 400
message), the unknown-mode fall-through with empty query and label, and
the optional vibe and mood qualifiers appended to the query. -/
def nostalgiaPlan (mode : String) (year : Option Nat) (prompt vibe mood : Option String) :
    Except String (String × String) :=
  let base : Except String (String × String) :=
    if mode = "childhood" then
      .ok ("2000s kids show theme nostalgic soft happy", "Childhood • Nostalgic mix")
    else if mode = "teen" then
      .ok ("2010 teenage anthems pop rock nostalgia school vibes", "Teenage Years • Nostalgic mix")
    else if mode = "year" then
      match year with
      | some y =>
        if y ≠ 0 then
          .ok ("top hits " ++ toString y ++ " nostalgic throwback",
               "Year " ++ toString y ++ " • Throwback mix")
        else .error "Year required"
      | none => .error "Year required"
    else if mode = "prompt" then
      match prompt with
      | some p =>
        if p ≠ "" then
          .ok (p ++ " nostalgic memory aesthetic soft", "Memory Prompt • Personalized mix")
        else .error "Prompt required"
      | none => .error "Prompt required"
    else .ok ("", "")
  match base with
  | .error e => .error e
  | .ok (q, label) =>
    let q2 := q ++ (match vibe with
      | some v => if v ≠ "" then " " ++ v ++ " vibe" else ""
      | none => "")
    let q3 := q2 ++ (match mood with
      | some m => if m ≠ "" then " " ++ m ++ " feel" else ""
      | none => "")
    .ok (q3, label)

/-- The nostalgia endpoint body: validate mode, plan query and label,
search with limit 20, on an empty result run the fixed broad fallback
with limit 16 and annotate the label, truncate to 12. -/
def nostalgia (mode : Option String) (year : Option Nat) (prompt vibe mood : Option String)
    (search : String → Nat → Except Unit (List Track)) : HttpOut :=
  match mode with
  | none => .badRequest "Missing mode"
  | some m =>
    if m = "" then .badRequest "Missing mode"
    else
      match nostalgiaPlan m year prompt vibe mood with
      | .error msg => .badRequest msg
      | .ok (q, label) =>
        match search q 20 with
        | .error _ => .serverError
        | .ok results =>
          if results.isEmpty then
            match search "nostalgic retro throwback" 16 with
            | .error _ => .serverError
            | .ok fb => .ok (fb.take 12) (label ++ " (fallback)") none
          else .ok (results.take 12) label none

/-- The own string entries of the vibe preset object literal. -/
def vibeLookup (k : String) : Option String :=
  if k = "chill" then some "lofi chill beats mellow instrumental"
  else if k = "hype" then some "high energy pop dance upbeat"
  else if k = "romantic" then some "romantic slow love ballad"
  else if k = "dreamy" then some "ethereal ambient dream pop"
  else if k = "night_drive" then some "synthwave night drive neon"
  else if k = "rainy" then some "rainy day acoustic mellow lofi"
  else if k = "focus" then some "focus instrumental study lofi"
  else if k = "party" then some "edm club bangers high energy"
  else none

/-- The property names a JS object literal inherits from Object.prototype
in Node: a bracket read of any of them resolves through the prototype
chain to a truthy non-string member instead of undefined. -/
def objectPrototypeKeys : List String :=
  ["constructor", "hasOwnProperty", "isPrototypeOf", "propertyIsEnumerable",
   "toLocaleString", "toString", "valueOf", "__proto__",
   "__defineGetter__", "__defineSetter__", "__lookupGetter__", "__lookupSetter__"]

/-- A JS value the query variable q of the vibe endpoint can hold: a
string, or the truthy non-string member inherited from Object.prototype
that a bracket read of a prototype property name yields. -/
inductive JsQueryValue where
  | str (s : String)
  | protoMember (key : String)
deriving DecidableEq

/-- The JS property read map[k] on the vibe preset object literal: an own
entry yields its phrase, a property name inherited from Object.prototype
yields that truthy non-string member, any other key is undefined. -/
def vibeMapRead (k : String) : Option JsQueryValue :=
  match vibeLookup k with
  | some phrase => some (.str phrase)
  | none => if k ∈ objectPrototypeKeys then some (.protoMember k) else none

/-- The preset arm of the vibe endpoint: read map[(vibe || "custom")];
any truthy read result (an own phrase or an inherited prototype member)
short-circuits the JS or-else, an undefined read degrades a truthy vibe
to vibe + " music" and a falsy vibe to "chill lofi"; the label is
(vibe || "Custom vibe") with underscores and dashes replaced by spaces. -/
def vibeBase (vibe : Option String) : JsQueryValue × String :=
  match vibe with
  | some v =>
    if v ≠ "" then
      ((match vibeMapRead v with
        | some q => q
        | none => .str (v ++ " music")),
       jsReplaceUnderscoreDash v)
    else
      ((match vibeMapRead "custom" with | some q => q | none => .str "chill lofi"),
       jsReplaceUnderscoreDash "Custom vibe")
  | none =>
    ((match vibeMapRead "custom" with | some q => q | none => .str "chill lofi"),
     jsReplaceUnderscoreDash "Custom vibe")

/-- The query and label construction of the vibe endpoint: a prompt with
nonblank trim wins (query prompt + " music", label the trimmed prompt),
otherwise the preset arm; a truthy mood is appended to both.  Appending
the mood to a prototype member coerces it to its engine-determined
string form, supplied here as the protoToString parameter. -/
def vibePlan (protoToString : String → String) (prompt vibe mood : Option String) :
    JsQueryValue × String :=
  let base :=
    match prompt with
    | some p =>
      if jsTrim p ≠ "" then (JsQueryValue.str (jsTrim p ++ " music"), jsTrim p)
      else vibeBase vibe
    | none => vibeBase vibe
  match mood with
  | some m =>
    if m ≠ "" then
      ((match base.1 with
        | .str s => JsQueryValue.str (s ++ " " ++ m)
        | .protoMember k => JsQueryValue.str (protoToString k ++ " " ++ m)),
       base.2 ++ " • " ++ m)
    else base
  | none => base

/-- The snapshot sentence of the vibe response. -/
def vibeSnapshot (prompt : Option String) (label : String) : String :=
  "Vibe: " ++ label ++ ". " ++
    (match prompt with
     | some p => if p ≠ "" then "You described: " ++ p ++ "." else ""
     | none => "")

/-- The vibe endpoint body: no validation, search the planned query with
limit 18 (the query is handed to the search call as the raw JS value it
holds), on an empty result run the fixed broad fallback and annotate
the label, truncate to 12 and attach the snapshot. -/
def vibeEndpoint (protoToString : String → String) (prompt vibe mood : Option String)
    (search : JsQueryValue → Nat → Except Unit (List Track)) : HttpOut :=
  match search (vibePlan protoToString prompt vibe mood).1 18 with
  | .error _ => .serverError
  | .ok results =>
    if results.isEmpty then
      match search (.str "nostalgic chill pop") 18 with
      | .error _ => .serverError
      | .ok fb =>
        .ok (fb.take 12) ((vibePlan protoToString prompt vibe mood).2 ++ " (fallback)")
          (some (vibeSnapshot prompt
            ((vibePlan protoToString prompt vibe mood).2 ++ " (fallback)")))
    else
      .ok (results.take 12) (vibePlan protoToString prompt vibe mood).2
        (some (vibeSnapshot prompt (vibePlan protoToString prompt vibe mood).2))

-- ===== Helper lemmas =====

deriving instance DecidableEq for Except

/-- The tracks a settled query contributes to the combined list: its
value when fulfilled, nothing when rejected. -/
def settledTracks (r : Except Unit (List Track)) : List Track :=
  match r with
  | .ok v => v
  | .error _ => []

theorem dedupLoop_sublist : ∀ (l : List Track) (seen : List String),
    (dedupLoop seen l).Sublist l := by
  intro l
  induction l with
  | nil => intro seen; simp [dedupLoop]
  | cons a ts ih =>
    intro seen
    by_cases h1 : normKey a = ""
    · simp only [dedupLoop, if_pos h1]
      exact (ih seen).cons a
    · by_cases h2 : normKey a ∈ seen
      · simp only [dedupLoop, if_neg h1, if_pos h2]
        exact (ih seen).cons a
      · simp only [dedupLoop, if_neg h1, if_neg h2]
        exact (ih (normKey a :: seen)).cons₂ a

theorem not_mem_seen_of_mem_dedupLoop : ∀ (l : List Track) (seen : List String) (t : Track),
    t ∈ dedupLoop seen l → normKey t ∉ seen := by
  intro l
  induction l with
  | nil => intro seen t h; simp [dedupLoop] at h
  | cons a ts ih =>
    intro seen t h
    by_cases h1 : normKey a = ""
    · rw [dedupLoop, if_pos h1] at h
      exact ih seen t h
    · by_cases h2 : normKey a ∈ seen
      · rw [dedupLoop, if_neg h1, if_pos h2] at h
        exact ih seen t h
      · rw [dedupLoop, if_neg h1, if_neg h2] at h
        rcases List.mem_cons.mp h with heq | hm
        · subst heq; exact h2
        · have h3 := ih (normKey a :: seen) t hm
          exact fun hc => h3 (List.mem_cons_of_mem _ hc)

theorem normKey_ne_blank_of_mem_dedupLoop : ∀ (l : List Track) (seen : List String) (t : Track),
    t ∈ dedupLoop seen l → normKey t ≠ "" := by
  intro l
  induction l with
  | nil => intro seen t h; simp [dedupLoop] at h
  | cons a ts ih =>
    intro seen t h
    by_cases h1 : normKey a = ""
    · rw [dedupLoop, if_pos h1] at h
      exact ih seen t h
    · by_cases h2 : normKey a ∈ seen
      · rw [dedupLoop, if_neg h1, if_pos h2] at h
        exact ih seen t h
      · rw [dedupLoop, if_neg h1, if_neg h2] at h
        rcases List.mem_cons.mp h with heq | hm
        · subst heq; exact h1
        · exact ih (normKey a :: seen) t hm

theorem dedupLoop_keys_nodup : ∀ (l : List Track) (seen : List String),
    ((dedupLoop seen l).map normKey).Nodup := by
  intro l
  induction l with
  | nil => intro seen; simp [dedupLoop]
  | cons a ts ih =>
    intro seen
    by_cases h1 : normKey a = ""
    · rw [dedupLoop, if_pos h1]; exact ih seen
    · by_cases h2 : normKey a ∈ seen
      · rw [dedupLoop, if_neg h1, if_pos h2]; exact ih seen
      · rw [dedupLoop, if_neg h1, if_neg h2, List.map_cons, List.nodup_cons]
        refine ⟨?_, ih (normKey a :: seen)⟩
        intro hc
        rcases List.mem_map.mp hc with ⟨t, ht, hk⟩
        have h3 := not_mem_seen_of_mem_dedupLoop ts (normKey a :: seen) t ht
        exact h3 (by rw [hk]; exact List.mem_cons_self _ _)

theorem mem_keys_dedupLoop : ∀ (l : List Track) (seen : List String) (t : Track),
    t ∈ l → normKey t ≠ "" → normKey t ∉ seen →
    normKey t ∈ (dedupLoop seen l).map normKey := by
  intro l
  induction l with
  | nil => intro seen t h; simp at h
  | cons a ts ih =>
    intro seen t ht hne hns
    rcases List.mem_cons.mp ht with heq | hm
    · subst heq
      rw [dedupLoop, if_neg hne, if_neg hns, List.map_cons]
      exact List.mem_cons_self _ _
    · by_cases h1 : normKey a = ""
      · rw [dedupLoop, if_pos h1]
        exact ih seen t hm hne hns
      · by_cases h2 : normKey a ∈ seen
        · rw [dedupLoop, if_neg h1, if_pos h2]
          exact ih seen t hm hne hns
        · rw [dedupLoop, if_neg h1, if_neg h2, List.map_cons]
          by_cases hk : normKey t = normKey a
          · rw [hk]; exact List.mem_cons_self _ _
          · refine List.mem_cons_of_mem _ ?_
            refine ih (normKey a :: seen) t hm hne ?_
            intro hc
            rcases List.mem_cons.mp hc with hc1 | hc2
            · exact hk hc1
            · exact hns hc2

theorem dedupLoop_find_first : ∀ (l : List Track) (seen : List String) (k : String),
    k ≠ "" → k ∉ seen →
    (dedupLoop seen l).find? (fun t => normKey t == k) = l.find? (fun t => normKey t == k) := by
  intro l
  induction l with
  | nil => intro seen k hk hks; simp [dedupLoop]
  | cons a ts ih =>
    intro seen k hk hks
    by_cases hak : normKey a = k
    · have h1 : ¬ normKey a = "" := by rw [hak]; exact hk
      have h2 : normKey a ∉ seen := by rw [hak]; exact hks
      rw [dedupLoop, if_neg h1, if_neg h2]
      simp [List.find?, hak]
    · have hpa : (normKey a == k) = false := by simp [hak]
      have hr : List.find? (fun t => normKey t == k) (a :: ts) =
          List.find? (fun t => normKey t == k) ts := by
        simp [List.find?, hpa]
      rw [hr]
      by_cases h1 : normKey a = ""
      · rw [dedupLoop, if_pos h1]
        exact ih seen k hk hks
      · by_cases h2 : normKey a ∈ seen
        · rw [dedupLoop, if_neg h1, if_pos h2]
          exact ih seen k hk hks
        · rw [dedupLoop, if_neg h1, if_neg h2]
          have hl : List.find? (fun t => normKey t == k) (a :: dedupLoop (normKey a :: seen) ts) =
              List.find? (fun t => normKey t == k) (dedupLoop (normKey a :: seen) ts) := by
            simp [List.find?, hpa]
          rw [hl]
          refine ih (normKey a :: seen) k hk ?_
          intro hc
          rcases List.mem_cons.mp hc with hc1 | hc2
          · exact hak hc1.symm
          · exact hks hc2

theorem bydjCombined_foldl_general :
    ∀ (sets : List (Except Unit (List Track))) (acc : List Track),
      sets.foldl (fun acc r => match r with | .ok v => acc ++ v | .error _ => acc) acc =
        acc ++ (sets.map settledTracks).flatten := by
  intro sets
  induction sets with
  | nil => intro acc; simp
  | cons r rs ih =>
    intro acc
    cases r with
    | ok v => simp [List.foldl_cons, ih, settledTracks, List.append_assoc]
    | error e => simp [List.foldl_cons, ih, settledTracks]

theorem bydjCombined_eq_flatten : ∀ (sets : List (Except Unit (List Track))),
    bydjCombined sets = (sets.map settledTracks).flatten := by
  intro sets
  rw [bydjCombined, bydjCombined_foldl_general]
  simp

theorem therapyStages_shape (search : String → Nat → Except Unit (List Track))
    (suffix q1 q2 q3 : String) :
    therapyStages search suffix q1 q2 q3 = .serverError ∨
    ∃ s1 s2 s3, therapyStages search suffix q1 q2 q3 = .stages s1 s2 s3 := by
  cases h1 : getStage search suffix q1 with
  | error e => exact Or.inl (by simp [therapyStages, h1])
  | ok s1 =>
    cases h2 : getStage search suffix q2 with
    | error e => exact Or.inl (by simp [therapyStages, h1, h2])
    | ok s2 =>
      cases h3 : getStage search suffix q3 with
      | error e => exact Or.inl (by simp [therapyStages, h1, h2, h3])
      | ok s3 => exact Or.inr ⟨s1, s2, s3, by simp [therapyStages, h1, h2, h3]⟩

-- ===== Concrete fixtures used by witnesses and counterexamples =====

/-- A track whose title normalizes to the key "song a". -/
def songA : Track := { title := "Song A", artist := "artist one", url := "u1" }

/-- A different track whose title also normalizes to "song a". -/
def songADup : Track := { title := "song a ", artist := "artist two", url := "u2" }

/-- A track with the distinct normalized key "song b". -/
def songB : Track := { title := "Song B", artist := "artist three", url := "u3" }

/-- The combined fan-out list of the spec scenario for deduplication. -/
def exCombined : List Track := [songA, songADup, songB]

/-- A one-hit raw backend response with two contributing artists. -/
def exRawItems : List RawTrack :=
  [{ name := "Song A", artists := [{ name := "Alice" }, { name := "Bob" }], spotifyUrl := "url1" }]

/-- A search oracle on which every query returns two hits. -/
def oracleAllHits : String → Nat → Except Unit (List Track) :=
  fun _ _ => .ok [songA, songB]

/-- A search oracle on which exactly the three hindi-suffixed happy seeds
return zero hits and every other query returns two hits. -/
def oracleSuffixedEmpty : String → Nat → Except Unit (List Track) :=
  fun q _ =>
    if q = "joy acoustic hindi" ∨ q = "good vibes pop hindi" ∨ q = "high energy hindi" then .ok []
    else .ok [songA, songB]

/-- A search oracle on which the suffixed first happy seed throws and
every other query, the bare seed included, returns two hits. -/
def oraclePrimaryThrows : String → Nat → Except Unit (List Track) :=
  fun q _ => if q = "joy acoustic hindi" then .error () else .ok [songA, songB]

-- ===== Claims =====

/-- C1: two getSpotifyAccessToken calls made while a cached token is
present and the wall clock is strictly before its expiry both return the
identical cached token value, perform no network call, and over the whole
run, miss included, exactly one credential exchange happens. -/
theorem token_reuse_single_exchange :
    ∀ (v : String) (life t0 t1 t2 : Nat) (e1 e2 : Except Unit (String × Nat)),
      v ≠ "" → t1 < t0 + life * 1000 → t2 < t0 + life * 1000 →
      runGetTokens initTokenState [(t0, .ok (v, life)), (t1, e1), (t2, e2)] =
        ({ spotifyAccessToken := some v, spotifyTokenExpiresAt := t0 + life * 1000 },
         [.ok v, .ok v, .ok v], 1) := by
  intro v life t0 t1 t2 e1 e2 hv h1 h2
  simp [runGetTokens, getSpotifyAccessToken, exchangeToken, initTokenState, hv, h1, h2]

/-- Witness for C1 at a concrete run. -/
theorem token_reuse_single_exchange_witness :
    runGetTokens initTokenState [(0, .ok ("tok", 3600)), (1, .error ()), (2, .error ())] =
      ({ spotifyAccessToken := some "tok", spotifyTokenExpiresAt := 0 + 3600 * 1000 },
       [.ok "tok", .ok "tok", .ok "tok"], 1) :=
  token_reuse_single_exchange "tok" 3600 0 1 2 (.error ()) (.error ())
    (by decide) (by decide) (by decide)

/-- C7: a getSpotifyAccessToken call with no cached token, or at or past
the cached expiry, performs exactly one exchange and stores the returned
token with expiry equal to the time observed at the start of the call
plus the returned lifetime in seconds (times are in milliseconds, so the
lifetime contributes life * 1000). -/
theorem token_refresh_on_miss :
    ∀ (s : TokenState) (now : Nat) (v : String) (life : Nat),
      (s.spotifyAccessToken = none ∨ s.spotifyTokenExpiresAt ≤ now) →
      getSpotifyAccessToken s now (.ok (v, life)) =
        .ok ({ spotifyAccessToken := some v, spotifyTokenExpiresAt := now + life * 1000 },
             v, true) := by
  intro s now v life h
  obtain ⟨tk, exp⟩ := s
  cases tk with
  | none => rfl
  | some tok =>
    rcases h with h | h
    · exact absurd h (by simp)
    · simp only [getSpotifyAccessToken]
      rw [if_neg]
      · rfl
      · rintro ⟨-, hlt⟩
        exact absurd hlt (Nat.not_lt.mpr h)

/-- Witness for C7 at the initial state. -/
theorem token_refresh_on_miss_witness :
    getSpotifyAccessToken initTokenState 5 (.ok ("tok", 2)) =
      .ok ({ spotifyAccessToken := some "tok", spotifyTokenExpiresAt := 5 + 2 * 1000 },
           "tok", true) :=
  token_refresh_on_miss initTokenState 5 "tok" 2 (Or.inl rfl)

/-- C8: searchTrackOnSpotify maps each raw hit positionally to a Track
whose title is the display name, whose artist is the contributing artist
names joined with a comma and a space in catalog order, and whose url is
the canonical public link; the output has the same length and order as
the backend response, with no filtering or re-ranking. -/
theorem searchTrack_mapping (items : List RawTrack) (i : Nat) (h : i < items.length) :
    (searchTrackOnSpotify items).length = items.length ∧
    (searchTrackOnSpotify items)[i]? =
      some { title := (items[i]).name,
             artist := String.intercalate ", " ((items[i]).artists.map RawArtist.name),
             url := (items[i]).spotifyUrl } := by
  constructor
  · simp [searchTrackOnSpotify]
  · simp [searchTrackOnSpotify, List.getElem?_eq_getElem, h, trackOfItem]

/-- Witness for C8 on a concrete backend response. -/
theorem searchTrack_mapping_witness :
    (searchTrackOnSpotify exRawItems).length = exRawItems.length ∧
    (searchTrackOnSpotify exRawItems)[0]? =
      some { title := "Song A", artist := "Alice, Bob", url := "url1" } :=
  searchTrack_mapping exRawItems 0 (by decide)

/-- C2: the dedup pass keeps exactly the first occurrence of each
normalized title key and always drops blank keys: the output is a
sublist of the input (insertion order), its keys are nonblank and free of
duplicates, every nonblank key of the input survives, and for every
nonblank key the kept track is the first input track bearing it; the
spec scenario with titles Song A, song a and Song B yields Song A then
Song B; in the bydj endpoint the deduplicated list is truncated to its
first 12 elements. -/
theorem dedup_keeps_first_occurrence :
    (∀ l : List Track,
      (dedupLoop [] l).Sublist l ∧
      ((dedupLoop [] l).map normKey).Nodup ∧
      (∀ t, t ∈ dedupLoop [] l → normKey t ≠ "") ∧
      (∀ t, t ∈ l → normKey t ≠ "" → normKey t ∈ (dedupLoop [] l).map normKey) ∧
      (∀ k, k ≠ "" →
        (dedupLoop [] l).find? (fun t => normKey t == k) =
          l.find? (fun t => normKey t == k))) ∧
    dedupLoop [] exCombined = [songA, songB] ∧
    (∀ resultsSets fallbackResults,
      (bydj resultsSets fallbackResults).1 =
        (dedupLoop [] (if (bydjCombined resultsSets).isEmpty then fallbackResults
          else bydjCombined resultsSets)).take 12) := by
  refine ⟨fun l => ⟨dedupLoop_sublist l [], dedupLoop_keys_nodup l [],
    fun t ht => normKey_ne_blank_of_mem_dedupLoop l [] t ht,
    fun t ht hne => mem_keys_dedupLoop l [] t ht hne (by simp),
    fun k hk => dedupLoop_find_first l [] k hk (by simp)⟩, by decide, ?_⟩
  intro rs fb
  by_cases hc : (bydjCombined rs).isEmpty
  · simp [bydj, hc]
  · simp [bydj, hc]

/-- Witness for C2: the key of Song B survives deduplication of the
scenario list. -/
theorem dedup_keeps_first_occurrence_witness :
    normKey songB ∈ (dedupLoop [] exCombined).map normKey :=
  (dedup_keeps_first_occurrence.1 exCombined).2.2.2.1 songB (by decide) (by decide)

/-- C3 counterexample: with all four fan-out queries fulfilled empty, the
fallback is issued, but its two results with equal normalized titles are
not returned verbatim: the dedup pass drops the second one. -/
theorem bydj_fallback_not_verbatim :
    (bydj [.ok [], .ok [], .ok [], .ok []] [songA, songADup]).2 = true ∧
    ([songA, songADup] : List Track).take 12 = [songA, songADup] ∧
    (bydj [.ok [], .ok [], .ok [], .ok []] [songA, songADup]).1 = [songA] ∧
    ([songA] : List Track) ≠ [songA, songADup] := by decide

/-- C3 (amended): the single broad fallback query is issued exactly when
the concatenated fan-out results are empty before deduplication, and the
fallback results then pass through the same dedup pass before being
truncated to at most 12, rather than being returned verbatim. -/
theorem bydj_fallback_trigger_and_dedup :
    ∀ resultsSets fallbackResults,
      ((bydj resultsSets fallbackResults).2 = true ↔ bydjCombined resultsSets = []) ∧
      (bydjCombined resultsSets = [] →
        (bydj resultsSets fallbackResults).1 = (dedupLoop [] fallbackResults).take 12) := by
  intro rs fb
  by_cases hc : (bydjCombined rs).isEmpty
  · have he : bydjCombined rs = [] := by simpa using hc
    constructor
    · simp [bydj, hc, he]
    · intro _; simp [bydj, hc]
  · have he : bydjCombined rs ≠ [] := by simpa using hc
    constructor
    · simp [bydj, hc, he]
    · intro h; exact absurd h he

/-- Witness for C3 (amended) on the concrete fallback scenario. -/
theorem bydj_fallback_trigger_and_dedup_witness :
    (bydj [.ok [], .ok [], .ok [], .ok []] [songA, songADup]).1 =
      (dedupLoop [] [songA, songADup]).take 12 :=
  (bydj_fallback_trigger_and_dedup [.ok [], .ok [], .ok [], .ok []] [songA, songADup]).2
    (by decide)

/-- C6: the fan-out aggregation consumes the settled outcome of every
launched query: the combined list is the concatenation, in query order,
of the fulfilled result lists, a rejected query contributing the empty
list instead of aborting the request, and when the combined list is
nonempty the response is its deduplication truncated to 12. -/
theorem bydj_settled_failure_tolerant :
    ∀ resultsSets fallbackResults,
      bydjCombined resultsSets = (resultsSets.map settledTracks).flatten ∧
      (bydjCombined resultsSets ≠ [] →
        bydj resultsSets fallbackResults =
          ((dedupLoop [] (bydjCombined resultsSets)).take 12, false)) := by
  intro rs fb
  refine ⟨bydjCombined_eq_flatten rs, ?_⟩
  intro h
  have hc : ¬ (bydjCombined rs).isEmpty := by simpa using h
  simp [bydj, hc]

/-- Witness for C6: a run with a rejected middle query still aggregates
the two fulfilled queries in order. -/
theorem bydj_settled_failure_tolerant_witness :
    bydj [.ok [songA], .error (), .ok [songB]] [] =
      ((dedupLoop [] (bydjCombined [.ok [songA], .error (), .ok [songB]])).take 12, false) :=
  (bydj_settled_failure_tolerant [.ok [songA], .error (), .ok [songB]] []).2 (by decide)

/-- C4 counterexample: on a stage that hits on the primary and on a stage
that needs the fallback, the therapy responses are identical, so no
label or meta of the response indicates that fallback was used; the
second oracle does take the fallback path on every stage. -/
theorem therapy_no_fallback_marker :
    therapy (some "happy") (some "hindi") oracleAllHits =
      therapy (some "happy") (some "hindi") oracleSuffixedEmpty ∧
    oracleSuffixedEmpty "joy acoustic hindi" 8 = .ok [] ∧
    oracleSuffixedEmpty "joy acoustic" 8 = .ok [songA, songB] ∧
    therapy (some "happy") (some "hindi") oracleSuffixedEmpty =
      .stages [songA, songB] [songA, songB] [songA, songB] := by decide

/-- C4 (amended): when the suffixed primary query of a stage succeeds
with zero hits, the bare unsuffixed seed runs as the single fallback and
the stage output is the first 6 tracks of its result; the therapy
response consists solely of the three stage lists (or a 400 or 500), so
it carries no label or meta that could indicate fallback use. -/
theorem getStage_fallback_unsuffixed :
    (∀ (search : String → Nat → Except Unit (List Track)) (suffix q : String),
      search (q ++ suffix) 8 = .ok [] →
      getStage search suffix q = (search q 8).map (fun r => r.take 6)) ∧
    (∀ (mood language : Option String) (search : String → Nat → Except Unit (List Track)),
      therapy mood language search = .badRequest "Mood missing" ∨
      therapy mood language search = .serverError ∨
      ∃ s1 s2 s3, therapy mood language search = .stages s1 s2 s3) := by
  constructor
  · intro search suffix q h
    simp only [getStage, h]
    cases hq : search q 8 with
    | error e => simp [Except.map]
    | ok r2 => simp [Except.map]
  · intro mood language search
    cases mood with
    | none => exact Or.inl rfl
    | some m =>
      by_cases hm : m = ""
      · subst hm; exact Or.inl rfl
      · simp only [therapy, if_neg hm]
        rcases therapyStages_shape search (therapySuffix language)
            (qsets m).1 (qsets m).2.1 (qsets m).2.2 with h | h
        · exact Or.inr (Or.inl h)
        · exact Or.inr (Or.inr h)

/-- Witness for C4 (amended) on the concrete fallback oracle. -/
theorem getStage_fallback_unsuffixed_witness :
    getStage oracleSuffixedEmpty " hindi" "joy acoustic" =
      (oracleSuffixedEmpty "joy acoustic" 8).map (fun r => r.take 6) :=
  getStage_fallback_unsuffixed.1 oracleSuffixedEmpty " hindi" "joy acoustic" (by decide)

/-- C5 counterexample: a stage whose suffixed primary call throws
propagates the error even though the unsuffixed fallback query would
succeed with results, and the endpoint answers 500. -/
theorem getStage_primary_error_propagates :
    getStage oraclePrimaryThrows " hindi" "joy acoustic" = .error () ∧
    oraclePrimaryThrows "joy acoustic" 8 = .ok [songA, songB] ∧
    ([songA, songB] : List Track) ≠ [] ∧
    therapy (some "happy") (some "hindi") oraclePrimaryThrows = .serverError := by decide

/-- C5 (amended): a stage propagates a search error exactly when the
suffixed primary call fails, or the primary succeeds with zero hits and
the unsuffixed fallback call fails: the fallback only runs after an
empty primary success, so a primary failure alone already surfaces. -/
theorem getStage_error_condition :
    ∀ (search : String → Nat → Except Unit (List Track)) (suffix q : String),
      getStage search suffix q = .error () ↔
        (search (q ++ suffix) 8 = .error () ∨
         (search (q ++ suffix) 8 = .ok [] ∧ search q 8 = .error ())) := by
  intro search suffix q
  cases h1 : search (q ++ suffix) 8 with
  | error e => cases e; simp [getStage, h1]
  | ok r =>
    cases r with
    | nil =>
      cases h2 : search q 8 with
      | error e => cases e; simp [getStage, h1, h2]
      | ok r2 => simp [getStage, h1, h2]
    | cons x xs => simp [getStage, h1]

/-- C9: planning the year mode without a year, or the prompt mode
without a prompt, answers 400 immediately with the corresponding message
whatever the search backend would do, while mode year with year 2010
yields a query and a label both containing 2010. -/
theorem nostalgia_validation_and_year :
    (∀ (p v m : Option String) (search : String → Nat → Except Unit (List Track)),
      nostalgia (some "year") none p v m search = .badRequest "Year required") ∧
    (∀ (y : Option Nat) (v m : Option String) (search : String → Nat → Except Unit (List Track)),
      nostalgia (some "prompt") y none v m search = .badRequest "Prompt required") ∧
    nostalgiaPlan "year" (some 2010) none none none =
      .ok ("top hits 2010 nostalgic throwback", "Year 2010 • Throwback mix") ∧
    (∃ a b : String, "top hits 2010 nostalgic throwback" = a ++ "2010" ++ b) ∧
    (∃ a b : String, "Year 2010 • Throwback mix" = a ++ "2010" ++ b) := by
  refine ⟨fun p v m search => rfl, fun y v m search => rfl, by decide,
    ⟨"top hits ", " nostalgic throwback", by decide⟩,
    ⟨"Year ", " • Throwback mix", by decide⟩⟩

/-- C10 counterexample: the vibe key constructor is nonempty and is not
one of the preset entries, yet the query does not degrade to
constructor + " music": the bracket read resolves through the prototype
chain to the truthy inherited member, which short-circuits the or-else
and becomes the query. -/
theorem vibe_proto_key_not_degraded :
    vibeLookup "constructor" = none ∧
    ("constructor" : String) ≠ "" ∧
    (vibePlan (fun k => k) none (some "constructor") none).1 =
      .protoMember "constructor" ∧
    (vibePlan (fun k => k) none (some "constructor") none).1 ≠
      .str ("constructor" ++ " music") := by decide

/-- C10 (amended): the vibe endpoint never answers 400; with prompt,
vibe and mood all absent it proceeds with the default query chill lofi
and the label Custom vibe; and an unknown nonempty vibe key degrades to
the query vibe + " music" provided the key is not a property name
inherited from Object.prototype (for such a name the truthy inherited
member becomes the query instead). -/
theorem vibe_never_validation_error :
    (∀ (protoToString : String → String) (prompt vibe mood : Option String)
        (search : JsQueryValue → Nat → Except Unit (List Track)) (msg : String),
      vibeEndpoint protoToString prompt vibe mood search ≠ .badRequest msg) ∧
    (∀ protoToString : String → String,
      vibePlan protoToString none none none = (.str "chill lofi", "Custom vibe")) ∧
    (∀ (protoToString : String → String) (v : String),
      v ≠ "" → vibeLookup v = none → v ∉ objectPrototypeKeys →
      (vibePlan protoToString none (some v) none).1 = .str (v ++ " music")) := by
  refine ⟨?_, fun protoToString => rfl, ?_⟩
  · intro protoToString prompt vibe mood search msg h
    simp only [vibeEndpoint] at h
    cases e1 : search (vibePlan protoToString prompt vibe mood).1 18 with
    | error e => rw [e1] at h; simp at h
    | ok results =>
      rw [e1] at h
      by_cases hr : results.isEmpty
      · simp only [hr, if_true] at h
        cases e2 : search (.str "nostalgic chill pop") 18 with
        | error e => rw [e2] at h; simp at h
        | ok fb => rw [e2] at h; simp at h
      · simp only [hr, if_false] at h
        simp at h
  · intro protoToString v hv hlk hp
    simp [vibePlan, vibeBase, vibeMapRead, hv, hlk, hp]

/-- Witness for C10 (amended) at the unknown non-prototype vibe key zzz. -/
theorem vibe_never_validation_error_witness :
    (vibePlan (fun k => k) none (some "zzz") none).1 = .str ("zzz" ++ " music") :=
  vibe_never_validation_error.2.2 (fun k => k) "zzz" (by decide) (by decide) (by decide)

end ArtificialHuman
